import Mathlib

/-!
# Verification of the blog backend's plan-enforcement and billing-sync subsystem

A shallow embedding of the Express/Supabase/Stripe backend (`src/unnamed/part_000`).
The backing store is modelled as an explicit state (`DB`) holding the `profiles`
and `blogs` tables; each HTTP handler becomes a function from its request data
and a `DB` to a response, a new `DB`, and a trace of the store/billing-provider
operations it performed.  The supabase-js `.single()` transform is modelled per
the contract the source itself encodes in `ensureProfile`: zero (or several)
matching rows yield an error whose code is `PGRST116`, one row yields the row.
Store/network failures and authentication token checking are external and not
modelled; every handler below runs on behalf of an already-authenticated user id.
-/

/-- A row of the `profiles` table.  Field names follow the source's column
names (`stripe_customer_id`, `stripe_subscription_id`); the spec calls these
`billing_customer_id` / `billing_subscription_id`. -/
structure Profile where
  id : String
  plan : String
  stripe_customer_id : Option String
  stripe_subscription_id : Option String
deriving DecidableEq, Repr

/-- A row of the `blogs` table. -/
structure Blog where
  id : Nat
  title : String
  content : String
  user_id : String
deriving DecidableEq, Repr

/-- The backing store: both tables plus the generator for blog primary keys. -/
structure DB where
  profiles : List Profile
  blogs : List Blog
  nextBlogId : Nat
deriving DecidableEq, Repr

/-- One store or billing-provider operation, recorded in the order the handler
issues it. -/
inductive Op where
  | selectProfile (uid : String)
  | insertProfile (uid : String)
  | countBlogs (uid : String)
  | insertBlog (uid : String)
  | updateBlog (blogId : Nat) (uid : String)
  | deleteBlog (blogId : Nat) (uid : String)
  | sigCheck (ok : Bool)
  | updateProfilesById (uid : String)
  | updateProfilesByCustomer (cus : Option String)
  | createCustomer (uid : String)
  | updateProfileCustomerId (uid : String) (cus : String)
  | createCheckoutSession (cus : String)
deriving DecidableEq, Repr

/-- Response bodies the handlers produce. -/
inductive Body where
  | errorMsg (msg : String)
  | received
  | blog (b : Blog)
  | message (msg : String)
  | checkoutUrl (url : String)
  | webhookSigError
deriving DecidableEq, Repr

/-- An HTTP response: status code and JSON (or text) body. -/
structure HttpResponse where
  status : Nat
  body : Body
deriving DecidableEq, Repr

/-- JavaScript truthiness of an optional string request field: `undefined`
(absent) and the empty string are falsy, every other string is truthy. -/
def jsFalsy : Option String → Bool
  | none => true
  | some s => s == ""

/-- The `PLAN_LIMITS` object literal restricted to its own keys
(`free`/`premium`).  The full JavaScript property lookup, which also
traverses the object's prototype chain, is `PLAN_LIMITS_lookup` below. -/
def PLAN_LIMITS : String → Option Nat := fun plan =>
  if plan == "free" then some 4
  else if plan == "premium" then some 20
  else none

/-- `DEFAULT_PLAN`. -/
def DEFAULT_PLAN : String := "free"

/-- `getPlanLimit (plan) => PLAN_LIMITS[plan] || PLAN_LIMITS[DEFAULT_PLAN]`,
restricted to key strings that hit no inherited `Object.prototype` member:
there an unrecognized plan falls back to the default plan's ceiling.  This
restriction is exact on `free` and `premium` — the only plan values this
subsystem ever stores — and on every string outside `objectProtoKeys`
(`getPlanLimit_agrees_outside_proto`); the handlers below use it.  The full
JS semantics, including the prototype chain, is `getPlanLimitJS`. -/
def getPlanLimit (plan : String) : Nat :=
  (PLAN_LIMITS plan).getD ((PLAN_LIMITS DEFAULT_PLAN).getD 0)

/-- A JavaScript value as observed by the `PLAN_LIMITS[plan]` lookup: a
numeric own property, a truthy non-number inherited from `Object.prototype`
(a function, or the prototype object itself for `__proto__`), or
`undefined`. -/
inductive JSValue where
  | num (n : Nat)
  | inherited (key : String)
  | jsUndefined
deriving DecidableEq, Repr

/-- The property names every object literal inherits from
`Object.prototype`; looking any of them up on `PLAN_LIMITS` yields a truthy
non-number value instead of `undefined`. -/
def objectProtoKeys : List String :=
  ["constructor", "hasOwnProperty", "isPrototypeOf", "propertyIsEnumerable",
   "toLocaleString", "toString", "valueOf", "__proto__", "__defineGetter__",
   "__defineSetter__", "__lookupGetter__", "__lookupSetter__"]

/-- JavaScript truthiness of a looked-up value: `undefined` and `0` are
falsy; the inherited function/object members are truthy. -/
def JSValue.truthy : JSValue → Bool
  | .num n => n != 0
  | .inherited _ => true
  | .jsUndefined => false

/-- `PLAN_LIMITS[plan]` with full JS property-lookup semantics: first the
object's own keys `free`/`premium`, then the prototype chain
(`Object.prototype`), and only then `undefined`. -/
def PLAN_LIMITS_lookup (plan : String) : JSValue :=
  if plan == "free" then .num 4
  else if plan == "premium" then .num 20
  else if plan ∈ objectProtoKeys then .inherited plan
  else .jsUndefined

/-- `getPlanLimit` under full JS semantics:
`PLAN_LIMITS[plan] || PLAN_LIMITS[DEFAULT_PLAN]` evaluates to the left
operand whenever it is truthy, so a truthy inherited `Object.prototype`
member is returned as is — not replaced by the default ceiling. -/
def getPlanLimitJS (plan : String) : JSValue :=
  if (PLAN_LIMITS_lookup plan).truthy then PLAN_LIMITS_lookup plan
  else PLAN_LIMITS_lookup DEFAULT_PLAN

/-- The supabase-js `.single()` transform: exactly one row is returned as is;
zero or several rows produce the error code `PGRST116` (the code `ensureProfile`
in the source checks for). -/
def singleOf {α : Type} (rows : List α) : Except String α :=
  match rows with
  | [r] => .ok r
  | _ => .error "PGRST116"

/-- `ensureProfile(user)`: select the profile row by the user's id with
`.single()`; if a row came back return it; on the no-row error insert a fresh
profile `{id, plan: DEFAULT_PLAN}` (billing columns null) and return it.
Store failures other than the no-row code are not modelled, so the `throw`
branches do not appear. -/
def ensureProfile (uid : String) (s : DB) : Profile × DB × List Op :=
  match singleOf (s.profiles.filter (fun p => p.id == uid)) with
  | .ok p => (p, s, [.selectProfile uid])
  | .error _ =>
      let np : Profile :=
        { id := uid, plan := DEFAULT_PLAN
          stripe_customer_id := none, stripe_subscription_id := none }
      (np, { s with profiles := s.profiles ++ [np] },
        [.selectProfile uid, .insertProfile uid])

/-- `getBlogCount(userId)`: exact count of blog rows whose `user_id` matches. -/
def getBlogCount (uid : String) (s : DB) : Nat :=
  (s.blogs.filter (fun b => b.user_id == uid)).length

/-- The plan-limit rejection message of the `POST /blogs` handler. -/
def planLimitMsg (planLimit : Nat) : String :=
  s!"Plan limit reached. Upgrade to add more than {planLimit} blogs."

/-- The `POST /blogs` handler body (after `requireAuth`): validate
`title`/`content` truthiness, provision the profile, count the user's blogs,
reject with 403 when the count has reached the plan ceiling, otherwise insert
the blog row and return it. -/
def postBlogs (uid : String) (title content : Option String) (s : DB) :
    HttpResponse × DB × List Op :=
  if jsFalsy title || jsFalsy content then
    ({ status := 400, body := .errorMsg "Title and content are required." }, s, [])
  else
    match ensureProfile uid s with
    | (profile, s1, ops1) =>
      let userBlogCount := getBlogCount uid s1
      let planLimit := getPlanLimit profile.plan
      if userBlogCount ≥ planLimit then
        ({ status := 403, body := .errorMsg (planLimitMsg planLimit) }, s1,
          ops1 ++ [.countBlogs uid])
      else
        let b : Blog :=
          { id := s1.nextBlogId, title := title.getD "", content := content.getD ""
            user_id := uid }
        ({ status := 200, body := .blog b },
          { s1 with blogs := s1.blogs ++ [b], nextBlogId := s1.nextBlogId + 1 },
          ops1 ++ [.countBlogs uid, .insertBlog uid])

/-- The `PUT /blogs/:id` handler body: validate `title`/`content` truthiness,
then `update blogs set title, content where id = blogId and user_id = uid`
returning the updated row through `.single()`.  With zero matching rows
`.single()` yields the `PGRST116` error, which the handler's `if (error) throw`
turns into the 500 catch-all; the `if (!data)` 404 branch is unreachable
because a returned row is never null without an error. -/
def putBlogsId (uid : String) (blogId : Nat) (title content : Option String)
    (s : DB) : HttpResponse × DB × List Op :=
  if jsFalsy title || jsFalsy content then
    ({ status := 400, body := .errorMsg "Title and content are required." }, s, [])
  else
    let upd : Blog → Blog := fun b =>
      { b with title := title.getD "", content := content.getD "" }
    let matched := s.blogs.filter (fun b => b.id == blogId && b.user_id == uid)
    let s1 : DB :=
      { s with blogs := s.blogs.map (fun b =>
          if b.id == blogId && b.user_id == uid then upd b else b) }
    match singleOf (matched.map upd) with
    | .error _ =>
        ({ status := 500, body := .errorMsg "Failed to update blog." }, s1,
          [.updateBlog blogId uid])
    | .ok b =>
        ({ status := 200, body := .blog b }, s1, [.updateBlog blogId uid])

/-- The `DELETE /blogs/:id` handler body:
`delete from blogs where id = blogId and user_id = uid` returning the deleted
row through `.single()`.  As in `putBlogsId`, zero matching rows give the
`PGRST116` error and hence the 500 catch-all; the `if (!data)` 404 branch is
unreachable. -/
def deleteBlogsId (uid : String) (blogId : Nat) (s : DB) :
    HttpResponse × DB × List Op :=
  let matched := s.blogs.filter (fun b => b.id == blogId && b.user_id == uid)
  let s1 : DB :=
    { s with blogs := s.blogs.filter (fun b => !(b.id == blogId && b.user_id == uid)) }
  match singleOf matched with
  | .error _ =>
      ({ status := 500, body := .errorMsg "Failed to delete blog." }, s1,
        [.deleteBlog blogId uid])
  | .ok _ =>
      ({ status := 200, body := .message "Blog deleted successfully." }, s1,
        [.deleteBlog blogId uid])

/-- The fields of `event.data.object` the webhook handler reads: for a
checkout session its `metadata.supabaseUserId`, `customer` and `subscription`;
for a subscription object its `customer`. -/
structure StripeEvent where
  type : String
  metadataSupabaseUserId : Option String
  customer : Option String
  subscription : Option String
deriving DecidableEq, Repr

/-- A webhook delivery: the event the raw payload encodes, plus whether
`stripe.webhooks.constructEvent` accepts the payload's signature against the
shared webhook secret (the cryptographic check itself is external). -/
structure WebhookDelivery where
  event : StripeEvent
  sigOk : Bool
deriving DecidableEq, Repr

/-- Which of the environment-provided Stripe credentials are present:
`stripe` (the secret key), `stripeWebhookSecret`, `stripePriceId`. -/
structure Config where
  stripeConfigured : Bool
  webhookSecretConfigured : Bool
  priceConfigured : Bool
deriving DecidableEq, Repr

/-- The `POST /stripe/webhook` handler: reject 400 if Stripe is unconfigured;
verify the signature (reject 400 on failure, before looking at the event);
on `checkout.session.completed` with a truthy `supabaseUserId` set the matching
profile's plan to premium and persist the customer/subscription references;
on `customer.subscription.deleted` reset the profile matched by
`stripe_customer_id` to the default plan and clear its subscription id;
acknowledge every verified event with `{received: true}`. -/
def stripeWebhook (cfg : Config) (d : WebhookDelivery) (s : DB) :
    HttpResponse × DB × List Op :=
  if !cfg.stripeConfigured || !cfg.webhookSecretConfigured then
    ({ status := 400, body := .errorMsg "Stripe webhook not configured." }, s, [])
  else if !d.sigOk then
    ({ status := 400, body := .webhookSigError }, s, [.sigCheck false])
  else if d.event.type == "checkout.session.completed" then
    if !(jsFalsy d.event.metadataSupabaseUserId) then
      let uid := d.event.metadataSupabaseUserId.getD ""
      let s1 : DB :=
        { s with profiles := s.profiles.map (fun p =>
            if p.id == uid then
              { p with
                  plan := "premium",
                  stripe_customer_id := d.event.customer,
                  stripe_subscription_id := d.event.subscription }
            else p) }
      ({ status := 200, body := .received }, s1,
        [.sigCheck true, .updateProfilesById uid])
    else
      ({ status := 200, body := .received }, s, [.sigCheck true])
  else if d.event.type == "customer.subscription.deleted" then
    let s1 : DB :=
      { s with profiles := s.profiles.map (fun p =>
          if p.stripe_customer_id == d.event.customer then
            { p with plan := DEFAULT_PLAN, stripe_subscription_id := none }
          else p) }
    ({ status := 200, body := .received }, s1,
      [.sigCheck true, .updateProfilesByCustomer d.event.customer])
  else
    ({ status := 200, body := .received }, s, [.sigCheck true])

/-- The `POST /billing/checkout` handler body: 500 if Stripe or the price id
is unconfigured; provision the profile; 400 if it is already premium; if its
`stripe_customer_id` is falsy, create a billing-provider customer (the id the
provider would return is the `newCustomerId` argument) and persist that id on
the profile; finally create a checkout session for the customer (its hosted
URL is the `sessionUrl` argument) and return it. -/
def billingCheckout (cfg : Config) (uid : String) (newCustomerId : String)
    (sessionUrl : String) (s : DB) : HttpResponse × DB × List Op :=
  if !cfg.stripeConfigured || !cfg.priceConfigured then
    ({ status := 500, body := .errorMsg "Stripe not configured." }, s, [])
  else
    match ensureProfile uid s with
    | (profile, s1, ops1) =>
      if profile.plan == "premium" then
        ({ status := 400, body := .errorMsg "You already have the premium plan." },
          s1, ops1)
      else if jsFalsy profile.stripe_customer_id then
        let customerId := newCustomerId
        let s2 : DB :=
          { s1 with profiles := s1.profiles.map (fun p =>
              if p.id == uid then { p with stripe_customer_id := some customerId }
              else p) }
        ({ status := 200, body := .checkoutUrl sessionUrl }, s2,
          ops1 ++ [.createCustomer uid, .updateProfileCustomerId uid customerId,
            .createCheckoutSession customerId])
      else
        let customerId := profile.stripe_customer_id.getD ""
        ({ status := 200, body := .checkoutUrl sessionUrl }, s1,
          ops1 ++ [.createCheckoutSession customerId])

/-! ## Fixtures for concrete evaluations -/

/-- A store with one profile (`alice`, free plan, unbilled) owning one blog. -/
def dbAlice : DB :=
  { profiles := [{ id := "alice", plan := "free"
                   stripe_customer_id := none, stripe_subscription_id := none }]
    blogs := [{ id := 1, title := "t", content := "c", user_id := "alice" }]
    nextBlogId := 2 }

/-- A store where `alice` (free plan) already owns four blogs — the free
ceiling exactly. -/
def dbAlice4 : DB :=
  { profiles := [{ id := "alice", plan := "free"
                   stripe_customer_id := none, stripe_subscription_id := none }]
    blogs := [{ id := 1, title := "t1", content := "c1", user_id := "alice" },
              { id := 2, title := "t2", content := "c2", user_id := "alice" },
              { id := 3, title := "t3", content := "c3", user_id := "alice" },
              { id := 4, title := "t4", content := "c4", user_id := "alice" }]
    nextBlogId := 5 }

/-- A configuration with every Stripe credential present. -/
def cfgFull : Config :=
  { stripeConfigured := true, webhookSecretConfigured := true
    priceConfigured := true }

/-! ## Claims -/

/-- On every tier string outside the inherited `Object.prototype` names the
`Nat`-valued `getPlanLimit` used by the handlers agrees with the full
JS-semantics lookup, so the handlers' use of `getPlanLimit` is exact on the
plan values this subsystem stores. -/
theorem getPlanLimit_agrees_outside_proto (plan : String)
    (h : ¬ plan ∈ objectProtoKeys) :
    getPlanLimitJS plan = .num (getPlanLimit plan) := by
  by_cases h1 : plan = "free"
  · simp [h1, getPlanLimitJS, PLAN_LIMITS_lookup, JSValue.truthy, getPlanLimit,
      PLAN_LIMITS]
  · by_cases h2 : plan = "premium"
    · simp [h2, getPlanLimitJS, PLAN_LIMITS_lookup, JSValue.truthy, getPlanLimit,
        PLAN_LIMITS]
    · simp [getPlanLimitJS, PLAN_LIMITS_lookup, JSValue.truthy, getPlanLimit,
        PLAN_LIMITS, DEFAULT_PLAN, h, h1, h2]

/-- Counterexample to C5 as stated: at the tier string `"toString"` — which
is neither `"free"` nor `"premium"` — the source's lookup finds the truthy
inherited `Object.prototype.toString` function, so `getPlanLimit` returns
that function instead of falling back to the free ceiling 4. -/
theorem getPlanLimit_proto_key_not_ceiling :
    ("toString" ≠ "free" ∧ "toString" ≠ "premium") ∧
    getPlanLimitJS "toString" = .inherited "toString" ∧
    getPlanLimitJS "toString" ≠ .num 4 := by
  refine ⟨⟨by decide, by decide⟩, by decide, by decide⟩

/-- **C5 (amended).** `getPlanLimitJS` is a pure total function on tier
strings: it returns 4 for `"free"`, 20 for `"premium"`, and the free ceiling
4 for every other tier string that is not a property name inherited from
`Object.prototype`; for each of the twelve inherited property names the
lookup yields the truthy inherited member, which is returned instead of the
ceiling. -/
theorem getPlanLimitJS_total_with_default :
    getPlanLimitJS "free" = .num 4 ∧ getPlanLimitJS "premium" = .num 20 ∧
    (∀ tier : String, tier ≠ "free" → tier ≠ "premium" →
      ¬ tier ∈ objectProtoKeys → getPlanLimitJS tier = .num 4) ∧
    (∀ tier ∈ objectProtoKeys, getPlanLimitJS tier = .inherited tier) := by
  refine ⟨by decide, by decide, fun tier h1 h2 h3 => ?_, by decide⟩
  simp [getPlanLimitJS, PLAN_LIMITS_lookup, JSValue.truthy, DEFAULT_PLAN,
    h1, h2, h3]

/-- Witness for C5 (amended): the fallback at the concrete unknown tier
`"gold"` and the inherited member at `"toString"`. -/
theorem getPlanLimitJS_total_with_default_witness :
    getPlanLimitJS "gold" = .num 4 ∧
    getPlanLimitJS "toString" = .inherited "toString" :=
  ⟨getPlanLimitJS_total_with_default.2.2.1 "gold" (by decide) (by decide)
      (by decide),
    getPlanLimitJS_total_with_default.2.2.2 "toString" (by decide)⟩

/-- **C6.** `ensureProfile` is idempotent under sequential calls: for an
identity with no profile row, the first call inserts exactly one profile with
the free plan and null billing fields and returns it; a second sequential call
finds that row and returns it unchanged with no second insert, so both calls
yield the same profile row. -/
theorem ensureProfile_idempotent (uid : String) (s : DB)
    (h : s.profiles.filter (fun p => p.id == uid) = []) :
    ensureProfile uid s =
      ({ id := uid, plan := "free", stripe_customer_id := none, stripe_subscription_id := none },
       { s with profiles := s.profiles ++
           [{ id := uid, plan := "free", stripe_customer_id := none, stripe_subscription_id := none }] },
       [.selectProfile uid, .insertProfile uid]) ∧
    ensureProfile uid ((ensureProfile uid s).2.1) =
      ((ensureProfile uid s).1, (ensureProfile uid s).2.1, [.selectProfile uid]) := by
  have h1 : ensureProfile uid s =
      ({ id := uid, plan := "free", stripe_customer_id := none, stripe_subscription_id := none },
       { s with profiles := s.profiles ++
           [{ id := uid, plan := "free", stripe_customer_id := none, stripe_subscription_id := none }] },
       [.selectProfile uid, .insertProfile uid]) := by
    simp [ensureProfile, h, singleOf, DEFAULT_PLAN]
  refine ⟨h1, ?_⟩
  rw [h1]
  simp [ensureProfile, List.filter_append, h, singleOf]

/-- Witness for C6: provisioning `"bob"` twice on the store `dbAlice` (which
has no profile for `"bob"`). -/
theorem ensureProfile_idempotent_witness :
    ensureProfile "bob" dbAlice =
      ({ id := "bob", plan := "free", stripe_customer_id := none, stripe_subscription_id := none },
       { dbAlice with profiles := dbAlice.profiles ++
           [{ id := "bob", plan := "free", stripe_customer_id := none, stripe_subscription_id := none }] },
       [.selectProfile "bob", .insertProfile "bob"]) ∧
    ensureProfile "bob" ((ensureProfile "bob" dbAlice).2.1) =
      ((ensureProfile "bob" dbAlice).1, (ensureProfile "bob" dbAlice).2.1,
        [.selectProfile "bob"]) :=
  ensureProfile_idempotent "bob" dbAlice (by decide)

/-- **C10.** A `POST /blogs` or `PUT /blogs/:id` request whose title or
content is absent or the empty string is answered 400 with
"Title and content are required.", identically in all four cases, with an
empty operation trace: no profile provisioning, no post count, no insert and
no update reach the store, and the store is unchanged. -/
theorem blogs_validation_short_circuit (uid : String) (blogId : Nat)
    (title content : Option String) (s : DB)
    (h : title = none ∨ title = some "" ∨ content = none ∨ content = some "") :
    postBlogs uid title content s =
      ({ status := 400, body := .errorMsg "Title and content are required." }, s, []) ∧
    putBlogsId uid blogId title content s =
      ({ status := 400, body := .errorMsg "Title and content are required." }, s, []) := by
  have hf : (jsFalsy title || jsFalsy content) = true := by
    rcases h with h | h | h | h <;> simp [h, jsFalsy]
  exact ⟨by simp [postBlogs, hf], by simp [putBlogsId, hf]⟩

/-- Witness for C10: an empty title against `dbAlice`. -/
theorem blogs_validation_short_circuit_witness :
    postBlogs "alice" (some "") (some "body") dbAlice =
      ({ status := 400, body := .errorMsg "Title and content are required." },
        dbAlice, []) ∧
    putBlogsId "alice" 1 (some "") (some "body") dbAlice =
      ({ status := 400, body := .errorMsg "Title and content are required." },
        dbAlice, []) :=
  blogs_validation_short_circuit "alice" 1 (some "") (some "body") dbAlice
    (Or.inr (Or.inl rfl))

/-- **C8.** Evaluation at a concrete non-owner request: user `"bob"` addresses
`PUT /blogs/1` and `DELETE /blogs/1` at `"alice"`'s blog in `dbAlice`.  The
store is left unchanged (no mutation of a non-owned post), but both handlers
answer 500 ("Failed to update/delete blog."), not the 404 the `if (!data)`
branch intends: with zero matching rows `.single()` yields the `PGRST116`
error (the contract `ensureProfile` itself encodes), so `if (error) throw`
fires first and the 404 branch is dead code. -/
theorem blogs_nonowner_mutation_500_not_404 :
    putBlogsId "bob" 1 (some "x") (some "y") dbAlice =
      ({ status := 500, body := .errorMsg "Failed to update blog." }, dbAlice,
        [.updateBlog 1 "bob"]) ∧
    deleteBlogsId "bob" 1 dbAlice =
      ({ status := 500, body := .errorMsg "Failed to delete blog." }, dbAlice,
        [.deleteBlog 1 "bob"]) := by
  constructor <;> rfl

/-- **C1.** For an authenticated user with an existing free-plan profile and a
non-empty title and content: if the user's post count has reached the free
ceiling 4, `POST /blogs` answers 403 with the `PlanLimitExceeded` message
naming the ceiling and the store is unchanged (no insert); if the count is
strictly below 4, the blog row is inserted and the user's post count grows by
one. -/
theorem postBlogs_free_plan_ceiling (uid : String) (title content : Option String)
    (s : DB) (p : Profile)
    (ht : jsFalsy title = false) (hc : jsFalsy content = false)
    (hp : s.profiles.filter (fun q => q.id == uid) = [p])
    (hfree : p.plan = "free") :
    (4 ≤ getBlogCount uid s →
      postBlogs uid title content s =
        ({ status := 403, body := .errorMsg (planLimitMsg 4) }, s,
          [.selectProfile uid, .countBlogs uid])) ∧
    (getBlogCount uid s < 4 →
      postBlogs uid title content s =
        ({ status := 200, body := .blog
            { id := s.nextBlogId, title := title.getD "", content := content.getD "", user_id := uid } },
         { s with
             blogs := s.blogs ++
               [{ id := s.nextBlogId, title := title.getD "", content := content.getD "", user_id := uid }],
             nextBlogId := s.nextBlogId + 1 },
         [.selectProfile uid, .countBlogs uid, .insertBlog uid]) ∧
      getBlogCount uid
        { s with
            blogs := s.blogs ++
              [{ id := s.nextBlogId, title := title.getD "", content := content.getD "", user_id := uid }],
            nextBlogId := s.nextBlogId + 1 } = getBlogCount uid s + 1) := by
  have hep : ensureProfile uid s = (p, s, [.selectProfile uid]) := by
    simp [ensureProfile, hp, singleOf]
  have hlim : getPlanLimit p.plan = 4 := by
    simp [hfree, getPlanLimit, PLAN_LIMITS]
  constructor
  · intro hge
    simp [postBlogs, ht, hc, hep, hlim, hge]
  · intro hlt
    constructor
    · simp [postBlogs, ht, hc, hep, hlim, Nat.not_le_of_lt hlt]
    · simp [getBlogCount, List.filter_append]

/-- Witness for C1: at the ceiling (`dbAlice4`, four existing posts) the
fifth post is rejected 403 naming the ceiling with the store unchanged. -/
theorem postBlogs_free_plan_ceiling_witness :
    postBlogs "alice" (some "x") (some "y") dbAlice4 =
      ({ status := 403, body := .errorMsg (planLimitMsg 4) }, dbAlice4,
        [.selectProfile "alice", .countBlogs "alice"]) :=
  (postBlogs_free_plan_ceiling "alice" (some "x") (some "y") dbAlice4
    { id := "alice", plan := "free", stripe_customer_id := none, stripe_subscription_id := none }
    (by decide) (by decide) (by decide) rfl).1 (by decide)

/-- **C2.** With the webhook configured, a delivery whose signature does not
verify against the shared webhook secret is answered 400 with no profile
mutation (the store is returned unchanged and the trace holds only the failed
signature check); moreover, for every delivery whatsoever the first operation
the handler performs is the signature verification — before any branch on the
event type. -/
theorem stripeWebhook_bad_signature_rejected (cfg : Config) (d : WebhookDelivery)
    (s : DB)
    (hs : cfg.stripeConfigured = true) (hw : cfg.webhookSecretConfigured = true)
    (hbad : d.sigOk = false) :
    stripeWebhook cfg d s =
      ({ status := 400, body := .webhookSigError }, s, [.sigCheck false]) ∧
    ∀ (e : WebhookDelivery) (t : DB),
      ((stripeWebhook cfg e t).2.2).head? = some (.sigCheck e.sigOk) := by
  constructor
  · simp [stripeWebhook, hs, hw, hbad]
  · intro e t
    by_cases hq : e.sigOk <;>
      by_cases h1 : e.event.type == "checkout.session.completed" <;>
        by_cases h2 : jsFalsy e.event.metadataSupabaseUserId <;>
          by_cases h3 : e.event.type == "customer.subscription.deleted" <;>
            simp [stripeWebhook, hs, hw, hq, h1, h2, h3]

/-- Witness for C2: a tampered `checkout.session.completed` delivery against
`dbAlice` is rejected with store untouched. -/
theorem stripeWebhook_bad_signature_rejected_witness :
    stripeWebhook cfgFull
        { event := { type := "checkout.session.completed",
                     metadataSupabaseUserId := some "alice",
                     customer := some "cus_1", subscription := some "sub_1" },
          sigOk := false } dbAlice =
      ({ status := 400, body := .webhookSigError }, dbAlice, [.sigCheck false]) ∧
    ∀ (e : WebhookDelivery) (t : DB),
      ((stripeWebhook cfgFull e t).2.2).head? = some (.sigCheck e.sigOk) :=
  stripeWebhook_bad_signature_rejected cfgFull
    { event := { type := "checkout.session.completed",
                 metadataSupabaseUserId := some "alice",
                 customer := some "cus_1", subscription := some "sub_1" },
      sigOk := false } dbAlice rfl rfl rfl

/-- **C3.** A validly signed `checkout.session.completed` event tagged with
identity `u1` (non-empty) and carrying customer `cus` and subscription `sub`
updates exactly the profiles whose id is `u1` to
`plan = "premium", stripe_customer_id = some cus, stripe_subscription_id = some sub`
and answers `{received: true}`; when a profile `p` with id `u1` exists, its
updated row is in the resulting store. -/
theorem stripeWebhook_checkout_completed (cfg : Config) (d : WebhookDelivery)
    (s : DB) (u1 cus sub : String) (p : Profile)
    (hs : cfg.stripeConfigured = true) (hw : cfg.webhookSecretConfigured = true)
    (hd : d = { event := { type := "checkout.session.completed",
                           metadataSupabaseUserId := some u1,
                           customer := some cus, subscription := some sub },
                sigOk := true })
    (hu : u1 ≠ "") (hp : p ∈ s.profiles) (hpid : p.id = u1) :
    stripeWebhook cfg d s =
      ({ status := 200, body := .received },
       { s with profiles := s.profiles.map (fun q =>
           if q.id == u1 then
             { q with plan := "premium", stripe_customer_id := some cus, stripe_subscription_id := some sub }
           else q) },
       [.sigCheck true, .updateProfilesById u1]) ∧
    { p with plan := "premium", stripe_customer_id := some cus, stripe_subscription_id := some sub } ∈
      (stripeWebhook cfg d s).2.1.profiles := by
  have h1 : stripeWebhook cfg d s =
      ({ status := 200, body := .received },
       { s with profiles := s.profiles.map (fun q =>
           if q.id == u1 then
             { q with plan := "premium", stripe_customer_id := some cus, stripe_subscription_id := some sub }
           else q) },
       [.sigCheck true, .updateProfilesById u1]) := by
    subst hd
    simp [stripeWebhook, hs, hw, jsFalsy, hu]
  refine ⟨h1, ?_⟩
  rw [h1]
  have h2 : (if p.id == u1 then
      { p with plan := "premium", stripe_customer_id := some cus, stripe_subscription_id := some sub }
    else p) =
      { p with plan := "premium", stripe_customer_id := some cus, stripe_subscription_id := some sub } := by
    simp [hpid]
  exact h2 ▸ List.mem_map_of_mem _ hp

/-- **C4.** A validly signed `customer.subscription.deleted` event carrying
customer reference `cus` answers `{received: true}` and rewrites the profile
table pointwise: every profile whose `stripe_customer_id` equals `some cus`
gets `plan = "free"` and `stripe_subscription_id = none`, while its
`stripe_customer_id` and `id` (and hence every other field) are unchanged;
profiles with a different customer reference are untouched. -/
theorem stripeWebhook_subscription_deleted (cfg : Config) (d : WebhookDelivery)
    (s : DB) (cus : String)
    (hs : cfg.stripeConfigured = true) (hw : cfg.webhookSecretConfigured = true)
    (htype : d.event.type = "customer.subscription.deleted")
    (hcu : d.event.customer = some cus) (hsig : d.sigOk = true) :
    stripeWebhook cfg d s =
      ({ status := 200, body := .received },
       { s with profiles := s.profiles.map (fun q =>
           if q.stripe_customer_id == some cus then
             { q with plan := "free", stripe_subscription_id := none }
           else q) },
       [.sigCheck true, .updateProfilesByCustomer (some cus)]) ∧
    ∀ q : Profile,
      (if q.stripe_customer_id == some cus then
          { q with plan := "free", stripe_subscription_id := none }
        else q).id = q.id ∧
      (if q.stripe_customer_id == some cus then
          { q with plan := "free", stripe_subscription_id := none }
        else q).stripe_customer_id = q.stripe_customer_id ∧
      (q.stripe_customer_id = some cus →
        (if q.stripe_customer_id == some cus then
            { q with plan := "free", stripe_subscription_id := none }
          else q).plan = "free" ∧
        (if q.stripe_customer_id == some cus then
            { q with plan := "free", stripe_subscription_id := none }
          else q).stripe_subscription_id = none) ∧
      (q.stripe_customer_id ≠ some cus →
        (if q.stripe_customer_id == some cus then
            { q with plan := "free", stripe_subscription_id := none }
          else q) = q) := by
  have hne : (d.event.type == "checkout.session.completed") = false := by
    simp [htype]
  constructor
  · simp [stripeWebhook, hs, hw, hsig, hne, htype, hcu, DEFAULT_PLAN]
  · intro q
    by_cases hq : q.stripe_customer_id = some cus <;> simp [hq]

/-- Witness for C4: cancelling `cus_1` downgrades the premium `alice` profile,
clearing the subscription id but keeping the customer id. -/
theorem stripeWebhook_subscription_deleted_witness :
    stripeWebhook cfgFull
        { event := { type := "customer.subscription.deleted",
                     metadataSupabaseUserId := none,
                     customer := some "cus_1", subscription := none },
          sigOk := true }
        { dbAlice with profiles := [{ id := "alice", plan := "premium", stripe_customer_id := some "cus_1", stripe_subscription_id := some "sub_1" }] } =
      ({ status := 200, body := .received },
       { { dbAlice with profiles := [{ id := "alice", plan := "premium", stripe_customer_id := some "cus_1", stripe_subscription_id := some "sub_1" }] } with
           profiles := [{ id := "alice", plan := "premium", stripe_customer_id := some "cus_1", stripe_subscription_id := some "sub_1" }].map
             (fun q => if q.stripe_customer_id == some "cus_1" then
                 { q with plan := "free", stripe_subscription_id := none }
               else q) },
       [.sigCheck true, .updateProfilesByCustomer (some "cus_1")]) ∧
    ∀ q : Profile,
      (if q.stripe_customer_id == some "cus_1" then
          { q with plan := "free", stripe_subscription_id := none }
        else q).id = q.id ∧
      (if q.stripe_customer_id == some "cus_1" then
          { q with plan := "free", stripe_subscription_id := none }
        else q).stripe_customer_id = q.stripe_customer_id ∧
      (q.stripe_customer_id = some "cus_1" →
        (if q.stripe_customer_id == some "cus_1" then
            { q with plan := "free", stripe_subscription_id := none }
          else q).plan = "free" ∧
        (if q.stripe_customer_id == some "cus_1" then
            { q with plan := "free", stripe_subscription_id := none }
          else q).stripe_subscription_id = none) ∧
      (q.stripe_customer_id ≠ some "cus_1" →
        (if q.stripe_customer_id == some "cus_1" then
            { q with plan := "free", stripe_subscription_id := none }
          else q) = q) :=
  stripeWebhook_subscription_deleted cfgFull
    { event := { type := "customer.subscription.deleted",
                 metadataSupabaseUserId := none,
                 customer := some "cus_1", subscription := none },
      sigOk := true }
    { dbAlice with profiles := [{ id := "alice", plan := "premium", stripe_customer_id := some "cus_1", stripe_subscription_id := some "sub_1" }] }
    "cus_1" rfl rfl rfl rfl rfl

/-- **C9.** Every validly signed delivery that is not one of the two handled
transitions — an event of any other kind, a `checkout.session.completed`
event with an absent (falsy) identity-id tag, or a
`checkout.session.completed` event whose identity id matches no profile — is
acknowledged with status 200 `{received: true}` and leaves the store
unchanged. -/
theorem stripeWebhook_other_events_acknowledged (cfg : Config)
    (d : WebhookDelivery) (s : DB)
    (hs : cfg.stripeConfigured = true) (hw : cfg.webhookSecretConfigured = true)
    (hsig : d.sigOk = true)
    (h : (d.event.type ≠ "checkout.session.completed" ∧
          d.event.type ≠ "customer.subscription.deleted") ∨
         (d.event.type = "checkout.session.completed" ∧
          jsFalsy d.event.metadataSupabaseUserId = true) ∨
         (d.event.type = "checkout.session.completed" ∧
          ∃ u, d.event.metadataSupabaseUserId = some u ∧
            s.profiles.filter (fun q => q.id == u) = [])) :
    (stripeWebhook cfg d s).1 = { status := 200, body := .received } ∧
    (stripeWebhook cfg d s).2.1 = s := by
  rcases h with ⟨h1, h2⟩ | ⟨h1, h2⟩ | ⟨h1, u, hu, hfil⟩
  · simp [stripeWebhook, hs, hw, hsig, h1, h2]
  · simp [stripeWebhook, hs, hw, hsig, h1, h2]
  · by_cases hemp : u = ""
    · simp [stripeWebhook, hs, hw, hsig, h1, hu, hemp, jsFalsy]
    · have hmap : s.profiles.map (fun q =>
          if q.id = u then
            { q with
                plan := "premium",
                stripe_customer_id := d.event.customer,
                stripe_subscription_id := d.event.subscription }
          else q) = s.profiles := by
        have hall := List.filter_eq_nil_iff.mp hfil
        calc s.profiles.map (fun q =>
              if q.id = u then
                { q with
                    plan := "premium",
                    stripe_customer_id := d.event.customer,
                    stripe_subscription_id := d.event.subscription }
              else q)
            = s.profiles.map id := by
              refine List.map_congr_left (fun q hq => ?_)
              have hne : q.id ≠ u := by simpa using hall q hq
              simp [hne]
          _ = s.profiles := List.map_id s.profiles
      simp [stripeWebhook, hs, hw, hsig, h1, hu, jsFalsy, hemp, hmap]

/-- Witness for C9: an `invoice.paid` event against `dbAlice` is acknowledged
and ignored. -/
theorem stripeWebhook_other_events_acknowledged_witness :
    (stripeWebhook cfgFull
        { event := { type := "invoice.paid", metadataSupabaseUserId := none,
                     customer := none, subscription := none },
          sigOk := true } dbAlice).1 = { status := 200, body := .received } ∧
    (stripeWebhook cfgFull
        { event := { type := "invoice.paid", metadataSupabaseUserId := none,
                     customer := none, subscription := none },
          sigOk := true } dbAlice).2.1 = dbAlice :=
  stripeWebhook_other_events_acknowledged cfgFull
    { event := { type := "invoice.paid", metadataSupabaseUserId := none,
                 customer := none, subscription := none },
      sigOk := true } dbAlice rfl rfl rfl
    (Or.inl ⟨by decide, by decide⟩)

/-- Filtering rows by a predicate commutes with a per-row update that only
rewrites rows satisfying the predicate and preserves it. -/
theorem filter_map_comm_pred (l : List Profile) (pr : Profile → Bool)
    (g : Profile → Profile) (hg : ∀ q, pr (g q) = pr q) :
    (l.map (fun q => if pr q then g q else q)).filter pr = (l.filter pr).map g := by
  induction l with
  | nil => rfl
  | cons a l ih =>
    by_cases ha : pr a
    · simp [List.filter_cons, List.map_cons, ha, hg, ih]
    · simp [List.filter_cons, List.map_cons, ha, ih]

/-- **C7.** For a profile that is not on the premium tier and has no persisted
billing customer id, two sequential `POST /billing/checkout` calls create
exactly one billing-provider customer: the first call creates one (a single
`createCustomer` in its trace) and persists the returned id `cid1` on the
profile, and the second call performs no `createCustomer` and starts its
checkout session with the persisted `cid1`, leaving the store as the first
call left it. -/
theorem billingCheckout_at_most_one_customer (cfg : Config)
    (uid cid1 cid2 url1 url2 : String) (s : DB) (p : Profile)
    (hs : cfg.stripeConfigured = true) (hpr : cfg.priceConfigured = true)
    (hp : s.profiles.filter (fun q => q.id == uid) = [p])
    (hplan : p.plan ≠ "premium")
    (hnc : p.stripe_customer_id = none)
    (hc1 : cid1 ≠ "") :
    billingCheckout cfg uid cid1 url1 s =
      ({ status := 200, body := .checkoutUrl url1 },
       { s with profiles := s.profiles.map (fun q =>
           if q.id == uid then { q with stripe_customer_id := some cid1 } else q) },
       [.selectProfile uid, .createCustomer uid,
         .updateProfileCustomerId uid cid1, .createCheckoutSession cid1]) ∧
    billingCheckout cfg uid cid2 url2 ((billingCheckout cfg uid cid1 url1 s).2.1) =
      ({ status := 200, body := .checkoutUrl url2 },
       (billingCheckout cfg uid cid1 url1 s).2.1,
       [.selectProfile uid, .createCheckoutSession cid1]) := by
  have hep : ensureProfile uid s = (p, s, [.selectProfile uid]) := by
    simp [ensureProfile, hp, singleOf]
  have hplanb : (p.plan == "premium") = false := by simp [hplan]
  have E1 : billingCheckout cfg uid cid1 url1 s =
      ({ status := 200, body := .checkoutUrl url1 },
       { s with profiles := s.profiles.map (fun q =>
           if q.id == uid then { q with stripe_customer_id := some cid1 } else q) },
       [.selectProfile uid, .createCustomer uid,
         .updateProfileCustomerId uid cid1, .createCheckoutSession cid1]) := by
    simp [billingCheckout, hs, hpr, hep, hplanb, hnc, jsFalsy]
  have hfil1 : ((s.profiles.map (fun q =>
      if q.id == uid then { q with stripe_customer_id := some cid1 } else q)).filter
        (fun q => q.id == uid)) = [{ p with stripe_customer_id := some cid1 }] := by
    have h := filter_map_comm_pred s.profiles (fun q => q.id == uid)
      (fun q => { q with stripe_customer_id := some cid1 }) (fun _ => rfl)
    rw [hp] at h
    exact h
  have hsecond : ∀ (t : DB) (p' : Profile),
      t.profiles.filter (fun q => q.id == uid) = [p'] →
      (p'.plan == "premium") = false →
      p'.stripe_customer_id = some cid1 →
      billingCheckout cfg uid cid2 url2 t =
        ({ status := 200, body := .checkoutUrl url2 }, t,
          [.selectProfile uid, .createCheckoutSession cid1]) := by
    intro t p' hfil hpl hcid
    have hep' : ensureProfile uid t = (p', t, [.selectProfile uid]) := by
      simp [ensureProfile, hfil, singleOf]
    simp [billingCheckout, hs, hpr, hep', hpl, hcid, jsFalsy, hc1]
  refine ⟨E1, ?_⟩
  rw [E1]
  exact hsecond _ { p with stripe_customer_id := some cid1 } hfil1
    (by simpa using hplan) rfl

/-- Witness for C7: two sequential checkout calls for `alice` on `dbAlice`
create exactly one customer (`cus_9`), which the second call reuses. -/
theorem billingCheckout_at_most_one_customer_witness :
    billingCheckout cfgFull "alice" "cus_9" "url1" dbAlice =
      ({ status := 200, body := .checkoutUrl "url1" },
       { dbAlice with profiles := dbAlice.profiles.map (fun q : Profile =>
           if q.id == "alice" then { q with stripe_customer_id := some "cus_9" } else q) },
       [.selectProfile "alice", .createCustomer "alice",
         .updateProfileCustomerId "alice" "cus_9", .createCheckoutSession "cus_9"]) ∧
    billingCheckout cfgFull "alice" "cus_10" "url2"
        ((billingCheckout cfgFull "alice" "cus_9" "url1" dbAlice).2.1) =
      ({ status := 200, body := .checkoutUrl "url2" },
       (billingCheckout cfgFull "alice" "cus_9" "url1" dbAlice).2.1,
       [.selectProfile "alice", .createCheckoutSession "cus_9"]) :=
  billingCheckout_at_most_one_customer cfgFull "alice" "cus_9" "cus_10" "url1" "url2"
    dbAlice
    { id := "alice", plan := "free", stripe_customer_id := none, stripe_subscription_id := none }
    rfl rfl (by decide) (by decide) rfl (by decide)

/-- Witness for C3: a signed completed-checkout event for `alice` with
`cus_1`/`sub_1` upgrades her profile in `dbAlice`. -/
theorem stripeWebhook_checkout_completed_witness :
    stripeWebhook cfgFull
        { event := { type := "checkout.session.completed",
                     metadataSupabaseUserId := some "alice",
                     customer := some "cus_1", subscription := some "sub_1" },
          sigOk := true } dbAlice =
      ({ status := 200, body := .received },
       { dbAlice with profiles := dbAlice.profiles.map (fun q : Profile =>
           if q.id == "alice" then
             { q with plan := "premium", stripe_customer_id := some "cus_1", stripe_subscription_id := some "sub_1" }
           else q) },
       [.sigCheck true, .updateProfilesById "alice"]) ∧
    { id := "alice", plan := "premium", stripe_customer_id := some "cus_1", stripe_subscription_id := some "sub_1" } ∈
      (stripeWebhook cfgFull
        { event := { type := "checkout.session.completed",
                     metadataSupabaseUserId := some "alice",
                     customer := some "cus_1", subscription := some "sub_1" },
          sigOk := true } dbAlice).2.1.profiles :=
  stripeWebhook_checkout_completed cfgFull
    { event := { type := "checkout.session.completed",
                 metadataSupabaseUserId := some "alice",
                 customer := some "cus_1", subscription := some "sub_1" },
      sigOk := true }
    dbAlice "alice" "cus_1" "sub_1"
    { id := "alice", plan := "free", stripe_customer_id := none, stripe_subscription_id := none }
    rfl rfl rfl (by decide) (by decide) rfl
